import Mathlib

/-!
Verification of the sqlcheck rule list (`src/list.cpp`) against its
natural-language specification.

The SQL statements are modelled as `List Char`.  The `std::regex`
(ECMAScript) patterns used by the rules are modelled by a small regular
expression AST `Rgx` together with a Brzozowski-derivative matcher whose
semantics is proved correct against an inductive `Rmatch` relation.
-/

namespace sqlcheck

/-- The fragment of ECMAScript regular expressions used by the rules of
`list.cpp`: literal characters, `.` (any character except a line
terminator), the class `\s` (whitespace per the C locale), concatenation,
alternation `|`, `+`, `*` and `?`.  `emp` (the empty language) only arises
as a derivative. -/
inductive Rgx where
  | emp : Rgx
  | epsilon : Rgx
  | char (c : Char) : Rgx
  | anychar : Rgx
  | wschar : Rgx
  | cat (r1 r2 : Rgx) : Rgx
  | alt (r1 r2 : Rgx) : Rgx
  | star (r : Rgx) : Rgx
  | plus (r : Rgx) : Rgx
  | opt (r : Rgx) : Rgx
deriving DecidableEq

/-- `\s` of `std::regex` over `char` in the classic locale: the six ASCII
whitespace characters. -/
def isWs (c : Char) : Bool :=
  c = ' ' || c = '\t' || c = '\n' || c = '\x0b' || c = '\x0c' || c = '\r'

/-- `.` of ECMAScript: any character other than a line terminator. -/
def isAny (c : Char) : Bool :=
  !(c = '\n' || c = '\r')

/-- The matching relation: `Rmatch r cs` holds iff the word `cs` is in the
language of `r`. -/
inductive Rmatch : Rgx → List Char → Prop where
  | epsilon : Rmatch .epsilon []
  | char (c : Char) : Rmatch (.char c) [c]
  | anychar (c : Char) (h : isAny c = true) : Rmatch .anychar [c]
  | wschar (c : Char) (h : isWs c = true) : Rmatch .wschar [c]
  | cat {r1 r2 : Rgx} {p1 p2 : List Char} (h1 : Rmatch r1 p1)
      (h2 : Rmatch r2 p2) : Rmatch (.cat r1 r2) (p1 ++ p2)
  | altL {r1 r2 : Rgx} {p : List Char} (h : Rmatch r1 p) : Rmatch (.alt r1 r2) p
  | altR {r1 r2 : Rgx} {p : List Char} (h : Rmatch r2 p) : Rmatch (.alt r1 r2) p
  | starNil {r : Rgx} : Rmatch (.star r) []
  | starCons {r : Rgx} {p1 p2 : List Char} (h1 : Rmatch r p1)
      (h2 : Rmatch (.star r) p2) : Rmatch (.star r) (p1 ++ p2)
  | plus {r : Rgx} {p1 p2 : List Char} (h1 : Rmatch r p1)
      (h2 : Rmatch (.star r) p2) : Rmatch (.plus r) (p1 ++ p2)
  | optNone {r : Rgx} : Rmatch (.opt r) []
  | optSome {r : Rgx} {p : List Char} (h : Rmatch r p) : Rmatch (.opt r) p

/-- Does `r` accept the empty word? -/
def nullable : Rgx → Bool
  | .emp => false
  | .epsilon => true
  | .char _ => false
  | .anychar => false
  | .wschar => false
  | .cat r1 r2 => nullable r1 && nullable r2
  | .alt r1 r2 => nullable r1 || nullable r2
  | .star _ => true
  | .plus r => nullable r
  | .opt _ => true

/-- Brzozowski derivative of `r` by the character `c`. -/
def deriv : Rgx → Char → Rgx
  | .emp, _ => .emp
  | .epsilon, _ => .emp
  | .char d, c => if d = c then .epsilon else .emp
  | .anychar, c => if isAny c then .epsilon else .emp
  | .wschar, c => if isWs c then .epsilon else .emp
  | .cat r1 r2, c =>
      if nullable r1 then .alt (.cat (deriv r1 c) r2) (deriv r2 c)
      else .cat (deriv r1 c) r2
  | .alt r1 r2, c => .alt (deriv r1 c) (deriv r2 c)
  | .star r, c => .cat (deriv r c) (.star r)
  | .plus r, c => .cat (deriv r c) (.star r)
  | .opt r, c => deriv r c

/-- Does some prefix of `cs` match `r`? -/
def matchesPref (r : Rgx) : List Char → Bool
  | [] => nullable r
  | c :: cs => nullable r || matchesPref (deriv r c) cs

/-- Unanchored search: does some substring of `cs` match `r`?  This is
`std::regex_search` semantics for the patterns at hand. -/
def rsearch (r : Rgx) : List Char → Bool
  | [] => matchesPref r []
  | c :: cs => matchesPref r (c :: cs) || rsearch r cs

/-- Concatenation of a list of characters taken as literals, used to embed
the literal parts of the patterns. -/
def lit : List Char → Rgx
  | [] => .epsilon
  | c :: cs => .cat (.char c) (lit cs)

/-- Literal pattern from a string. -/
def lits (s : String) : Rgx := lit s.toList

/-- The keyword sequence `"create table"` (`table_template` in `list.cpp`). -/
def tableTemplate : List Char := "create table".toList

/-- `sql_statement.find(pat)` followed by `sql_statement.substr(found + pat.size())`:
the text after the first occurrence of `pat`, or `none` when `pat` does not
occur. -/
def afterSubstr (pat : List Char) : List Char → Option (List Char)
  | [] => if pat = [] then some [] else none
  | c :: cs =>
      if pat.isPrefixOf (c :: cs) then some ((c :: cs).drop pat.length)
      else afterSubstr pat cs

/-- `IsCreateStatement` from `list.cpp`: true iff the statement contains the
substring `"create table"`. -/
def IsCreateStatement (sql_statement : List Char) : Bool :=
  (afterSubstr tableTemplate sql_statement).isSome

/-- One left-to-right pass of
`std::regex_replace(rest, std::regex("^ +| +$|( ) +"), "$1")` after the
leading spaces (alternative `^ +`) have been removed: a run of spaces that
reaches the end of the string is deleted (alternative ` +$`), and an interior
run of two or more spaces is replaced by the single captured space
(alternative `( ) +`, replacement `$1`). -/
def collapse : List Char → List Char
  | [] => []
  | [c] => if c = ' ' then [] else [c]
  | c :: d :: cs =>
      if c = ' ' && d = ' ' then collapse (d :: cs)
      else c :: collapse (d :: cs)

/-- The whole `std::regex_replace(rest, std::regex("^ +| +$|( ) +"), "$1")`
call of `GetTableName`: strip leading and trailing spaces, collapse interior
runs of spaces.  The pattern is over the space character `' '` only. -/
def stripSpaces (cs : List Char) : List Char :=
  collapse (cs.dropWhile (fun c => c = ' '))

/-- `GetTableName` from `list.cpp`: empty when `"create table"` does not
occur; otherwise the text after its first occurrence is space-normalised and
cut at the first space (`rest.substr(0, rest.find(' '))`). -/
def GetTableName (sql_statement : List Char) : List Char :=
  match afterSubstr tableTemplate sql_statement with
  | none => []
  | some rest => (stripSpaces rest).takeWhile (fun c => c ≠ ' ')

/-- Modelled from the spec: the severity enumeration of `checker.h` (not in
the sources); §3 gives the ordered set INFO, WARN, ERROR. -/
inductive LogLevel where
  | LOG_LEVEL_INFO : LogLevel
  | LOG_LEVEL_WARN : LogLevel
  | LOG_LEVEL_ERROR : LogLevel
deriving DecidableEq

/-- The statement-class enumeration used by `list.cpp` (declared in
`checker.h`; §3 of the spec gives QUERY and CREATION). -/
inductive PatternType where
  | PATTERN_TYPE_QUERY : PatternType
  | PATTERN_TYPE_CREATION : PatternType
deriving DecidableEq

/-- Modelled from the spec: a diagnostic (§3) carries the rule title, the
severity, the category and the rationale message. -/
structure Diagnostic where
  title : String
  level : LogLevel
  ptype : PatternType
  message : String
deriving DecidableEq

/-- Modelled from the spec: the read-only `Configuration` (§3) holds the
enabled rule set; rules are keyed by their title (§4.3). -/
structure Configuration where
  enabled : String → Bool

/-- Modelled from the spec: `CheckPattern` (the Pattern Matcher of
`checker.cpp`, not in the sources).  Per §4.2 it searches the statement for
the pattern anywhere and applies the trigger policy: with
match-means-violation (`true`) a diagnostic is emitted when the pattern is
found, with absence-means-violation (`false`) when it is not found. -/
def CheckPattern (_state : Configuration) (sql_statement : List Char)
    (pattern : Rgx) (level : LogLevel) (pattern_type : PatternType)
    (title message : String) (matchMeansViolation : Bool) : List Diagnostic :=
  let found := rsearch pattern sql_statement
  if (if matchMeansViolation then found else !found) then
    [⟨title, level, pattern_type, message⟩]
  else []

/-- `message1` of `CheckSelectStar`. -/
def selectStarMessage1 : String :=
  "● Inefficiency in moving data to the consumer:\n" ++
  "When you SELECT *, you're often retrieving more columns from the database than\n" ++
  "your application really needs to function. This causes more data to move from\n" ++
  "the database server to the client, slowing access and increasing load on your\n" ++
  "machines, as well as taking more time to travel across the network. This is\n" ++
  "especially true when someone adds new columns to underlying tables that didn't\n" ++
  "exist and weren't needed when the original consumers coded their data access.\n"

/-- `message2` of `CheckSelectStar`. -/
def selectStarMessage2 : String :=
  "● Indexing issues:\n" ++
  "Consider a scenario where you want to tune a query to a high level of performance.\n" ++
  "If you were to use *, and it returned more columns than you actually needed,\n" ++
  "the server would often have to perform more expensive methods to retrieve your\n" ++
  "data than it otherwise might. For example, you wouldn't be able to create an index\n" ++
  "which simply covered the columns in your SELECT list, and even if you did\n" ++
  "(including all columns [shudder]), the next guy who came around and added a column\n" ++
  "to the underlying table would cause the optimizer to ignore your optimized covering\n" ++
  "index, and you'd likely find that the performance of your query would drop\n" ++
  "substantially for no readily apparent reason.\n"

/-- `message3` of `CheckSelectStar`. -/
def selectStarMessage3 : String :=
  "● Binding Problems:\n" ++
  "When you SELECT *, it's possible to retrieve two columns of the same name from two\n" ++
  "different tables. This can often crash your data consumer. Imagine a query that joins\n" ++
  "two tables, both of which contain a column called \"ID\". How would a consumer know\n" ++
  "which was which? SELECT * can also confuse views (at least in some versions SQL Server)\n" ++
  "when underlying table structures change -- the view is not rebuilt, and the data which\n" ++
  "comes back can be nonsense. And the worst part of it is that you can take care to name\n" ++
  "your columns whatever you want, but the next guy who comes along might have no way of\n" ++
  "knowing that he has to worry about adding a column which will collide with your\n" ++
  "already-developed names.\n"

/-- The combined message of `CheckSelectStar`. -/
def selectStarMessage : String :=
  selectStarMessage1 ++ "\n" ++ selectStarMessage2 ++ "\n" ++ selectStarMessage3

/-- The pattern `(select\s+\*)` of `CheckSelectStar`. -/
def selectStarPattern : Rgx :=
  .cat (lits "select") (.cat (.plus .wschar) (.char '*'))

/-- `CheckSelectStar` from `list.cpp`. -/
def CheckSelectStar (state : Configuration) (sql_statement : List Char) :
    List Diagnostic :=
  CheckPattern state sql_statement selectStarPattern
    .LOG_LEVEL_ERROR .PATTERN_TYPE_QUERY "SELECT *" selectStarMessage true

/-- The message of `CheckMultiValuedAttribute`. -/
def multiValuedAttributeMessage : String :=
  "● Store each value in its own column and row:\n" ++
  "Storing a list of IDs as a VARCHAR/TEXT column can cause performance and data integrity\n" ++
  "problems. Querying against such a column would require using pattern-matching\n" ++
  "expressions. It is awkward and costly to join a comma-separated list to matching rows.\n" ++
  "This will make it harder to validate IDs. Think about what is the greatest number of\n" ++
  "entries this list must support? Instead of using a multi-valued attribute,\n" ++
  "consider storing it in a separate table, so that each individual value of that attribute\n" ++
  "occupies a separate row. Such an intersection table implements a many-to-many relationship\n" ++
  "between the two referenced tables. This will greatly simplify querying and validating\n" ++
  "the IDs.\n"

/-- The pattern `(id\s+varchar)|(id\s+text)|(id\s+regexp)` of
`CheckMultiValuedAttribute`. -/
def multiValuedAttributePattern : Rgx :=
  .alt (.cat (lits "id") (.cat (.plus .wschar) (lits "varchar")))
    (.alt (.cat (lits "id") (.cat (.plus .wschar) (lits "text")))
      (.cat (lits "id") (.cat (.plus .wschar) (lits "regexp"))))

/-- `CheckMultiValuedAttribute` from `list.cpp`. -/
def CheckMultiValuedAttribute (state : Configuration)
    (sql_statement : List Char) : List Diagnostic :=
  CheckPattern state sql_statement multiValuedAttributePattern
    .LOG_LEVEL_ERROR .PATTERN_TYPE_CREATION "Multi-Valued Attribute"
    multiValuedAttributeMessage true

/-- The message of `CheckRecursiveDependency`. -/
def recursiveDependencyMessage : String :=
  "● Avoid recursive relationships:\n" ++
  "It’s common for data to have recursive relationships. Data may be organized in a\n" ++
  "treelike or hierarchical way. However, creating a foreign key constraint to enforce\n" ++
  "the relationship between two columns in the same table lends to awkward querying.\n" ++
  "Each level of the tree corresponds to another join. You will need to issue recursive\n" ++
  "queries to get all descendants or all ancestors of a node.\n" ++
  "A solution is to construct an additional closure table. It involves storing all paths\n" ++
  "through the tree, not just those with a direct parent-child relationship.\n" ++
  "You might want to compare different hierarchical data designs -- closure table,\n" ++
  "path enumeration, nested sets -- and pick one based on your application's needs.\n"

/-- The ECMAScript reading of a table name spliced verbatim into
`"(references\s+" + table_name + ")"` by `CheckRecursiveDependency`: the
code performs no escaping, so pattern metacharacters occurring in the name
keep their pattern meaning.  Modelled for names built from ordinary
characters and the metacharacters `.` (any character) and postfix `*`, `+`,
`?`. -/
def splicedAtom (c : Char) : Rgx :=
  if c = '.' then .anychar else .char c

/-- See `splicedAtom`: compilation of the spliced table name. -/
def compileSpliced : List Char → Rgx
  | [] => .epsilon
  | c :: '*' :: cs => .cat (.star (splicedAtom c)) (compileSpliced cs)
  | c :: '+' :: cs => .cat (.plus (splicedAtom c)) (compileSpliced cs)
  | c :: '?' :: cs => .cat (.opt (splicedAtom c)) (compileSpliced cs)
  | c :: cs => .cat (splicedAtom c) (compileSpliced cs)

/-- `CheckRecursiveDependency` from `list.cpp`: returns before any pattern
evaluation when the extracted table name is empty; otherwise searches for
the dynamically built pattern `(references\s+<table_name>)`. -/
def CheckRecursiveDependency (state : Configuration)
    (sql_statement : List Char) : List Diagnostic :=
  let table_name := GetTableName sql_statement
  if table_name = [] then []
  else
    CheckPattern state sql_statement
      (.cat (lits "references") (.cat (.plus .wschar) (compileSpliced table_name)))
      .LOG_LEVEL_ERROR .PATTERN_TYPE_CREATION "Recursive Dependency"
      recursiveDependencyMessage true

/-- The message of `CheckPrimaryKeyExists`. -/
def primaryKeyExistsMessage : String :=
  "● Consider adding a primary key:\n" ++
  "A primary key constraint is important when you need to do the following:\n" ++
  "prevent a table from containing duplicate rows,\n" ++
  "reference individual rows in queries, and\n" ++
  "support foreign key references\n" ++
  "If you don’t use primary key constraints, you create a chore for yourself:\n" ++
  "checking for duplicate rows. More often than not, you will need to define\n" ++
  "a primary key for every table. Use compound keys when they are appropriate.\n"

/-- `CheckPrimaryKeyExists` from `list.cpp`: hard-skips non-creation
statements, then searches for `(primary key)` with
absence-means-violation. -/
def CheckPrimaryKeyExists (state : Configuration)
    (sql_statement : List Char) : List Diagnostic :=
  if IsCreateStatement sql_statement = false then []
  else
    CheckPattern state sql_statement (lits "primary key")
      .LOG_LEVEL_WARN .PATTERN_TYPE_CREATION "Primary Key Exists"
      primaryKeyExistsMessage false

/-- The message of `CheckGenericPrimaryKey`. -/
def genericPrimaryKeyMessage : String :=
  "● Skip using a generic primary key (id):\n" ++
  "Adding an id column to every table causes several effects that make its\n" ++
  "use seem arbitrary. You might end up creating a redundant key or allow\n" ++
  "duplicate rows if you add this column in a compound key.\n" ++
  "The name id is so generic that it holds no meaning. This is especially\n" ++
  "important when you join two tables and they have the same primary\n" ++
  "key column name.\n"

/-- The pattern `(\s+[\(]?id\s+)|(,id\s+)|(\s+id\s+serial)` of
`CheckGenericPrimaryKey`. -/
def genericPrimaryKeyPattern : Rgx :=
  .alt (.cat (.plus .wschar)
         (.cat (.opt (.char '(')) (.cat (lits "id") (.plus .wschar))))
    (.alt (.cat (.char ',') (.cat (lits "id") (.plus .wschar)))
      (.cat (.plus .wschar)
        (.cat (lits "id") (.cat (.plus .wschar) (lits "serial")))))

/-- `CheckGenericPrimaryKey` from `list.cpp`: hard-skips non-creation
statements, then searches for a column literally named `id`. -/
def CheckGenericPrimaryKey (state : Configuration)
    (sql_statement : List Char) : List Diagnostic :=
  if IsCreateStatement sql_statement = false then []
  else
    CheckPattern state sql_statement genericPrimaryKeyPattern
      .LOG_LEVEL_ERROR .PATTERN_TYPE_CREATION "Generic Primary Key"
      genericPrimaryKeyMessage true

/-- The message of `CheckForeignKeyExists`. -/
def foreignKeyExistsMessage : String :=
  "● Consider adding a foreign key:\n" ++
  "Are you leaving out the application constraints? Even though it seems at\n" ++
  "first that skipping foreign key constraints makes your database design\n" ++
  "simpler, more flexible, or speedier, you pay for this in other ways.\n" ++
  "It becomes your responsibility to write code to ensure referential integrity\n" ++
  "manually. Use foreign key constraints to enforce referential integrity.\n" ++
  "Foreign keys have another feature you can’t mimic using application code:\n" ++
  "cascading updates to multiple tables. This feature allows you to\n" ++
  "update or delete the parent row and lets the database takes care of any child\n" ++
  "rows that reference it. The way you declare the ON UPDATE or ON DELETE clauses\n" ++
  "in the foreign key constraint allow you to control the result of a cascading\n" ++
  "operation. Make your database mistake-proof with constraints.\n"

/-- `CheckForeignKeyExists` from `list.cpp`: hard-skips non-creation
statements, then searches for `(foreign key)` with
absence-means-violation. -/
def CheckForeignKeyExists (state : Configuration)
    (sql_statement : List Char) : List Diagnostic :=
  if IsCreateStatement sql_statement = false then []
  else
    CheckPattern state sql_statement (lits "foreign key")
      .LOG_LEVEL_WARN .PATTERN_TYPE_CREATION "Foreign Key Exists"
      foreignKeyExistsMessage false

/-- Modelled from the spec: the rule registry assembled in `checker.cpp`
(not in the sources).  §4.3 lists the baseline rules in order; the rule
bodies are the six checker functions of `list.cpp`. -/
def RuleRegistry : List (String × (Configuration → List Char → List Diagnostic)) :=
  [("SELECT *", CheckSelectStar),
   ("Multi-Valued Attribute", CheckMultiValuedAttribute),
   ("Recursive Dependency", CheckRecursiveDependency),
   ("Primary Key Exists", CheckPrimaryKeyExists),
   ("Generic Primary Key", CheckGenericPrimaryKey),
   ("Foreign Key Exists", CheckForeignKeyExists)]

/-- Modelled from the spec: `evaluate(config, statement)` of §4.3 and §6
(the engine loop of `checker.cpp`, not in the sources) — run each enabled
rule in registration order and concatenate the emitted diagnostics. -/
def evaluate (config : Configuration) (stmt : List Char) : List Diagnostic :=
  (RuleRegistry.filter (fun r => config.enabled r.1)).foldr
    (fun r acc => r.2 config stmt ++ acc) []

/-- The configuration with every rule enabled. -/
def allRulesEnabled : Configuration := ⟨fun _ => true⟩

/-- Title, severity and category of every baseline rule, in registration
order (the table of §4.3 of the spec, with the severities and categories of
`list.cpp`). -/
def ruleTable : List (String × LogLevel × PatternType) :=
  [("SELECT *", .LOG_LEVEL_ERROR, .PATTERN_TYPE_QUERY),
   ("Multi-Valued Attribute", .LOG_LEVEL_ERROR, .PATTERN_TYPE_CREATION),
   ("Recursive Dependency", .LOG_LEVEL_ERROR, .PATTERN_TYPE_CREATION),
   ("Primary Key Exists", .LOG_LEVEL_WARN, .PATTERN_TYPE_CREATION),
   ("Generic Primary Key", .LOG_LEVEL_ERROR, .PATTERN_TYPE_CREATION),
   ("Foreign Key Exists", .LOG_LEVEL_WARN, .PATTERN_TYPE_CREATION)]

/-- Specification-side reading of the table-name extraction: the first
space-delimited token of the text after the first `"create table"`, obtained
by dropping the leading spaces and cutting at the next space.  Used to
compare `GetTableName` against the spec's description. -/
def GetTableNameTokenSpec (sql_statement : List Char) : List Char :=
  match afterSubstr tableTemplate sql_statement with
  | none => []
  | some rest => (rest.dropWhile (fun c => c = ' ')).takeWhile (fun c => c ≠ ' ')

/-- Specification-side reading of the Multi-Valued Attribute trigger: the
statement contains `id` immediately followed by a nonempty run of
whitespace and then `varchar`, `text` or `regexp`. -/
def HasIdTypeOcc (s : List Char) : Prop :=
  ∃ pre mid kw post,
    s = pre ++ "id".toList ++ mid ++ kw ++ post ∧
    mid ≠ [] ∧ (∀ c ∈ mid, isWs c = true) ∧
    (kw = "varchar".toList ∨ kw = "text".toList ∨ kw = "regexp".toList)

/-- The diagnostic emitted by `CheckMultiValuedAttribute`. -/
def multiValuedAttributeDiagnostic : Diagnostic :=
  ⟨"Multi-Valued Attribute", .LOG_LEVEL_ERROR, .PATTERN_TYPE_CREATION,
    multiValuedAttributeMessage⟩

theorem Rmatch_emp {w : List Char} : ¬ Rmatch .emp w := fun h => nomatch h

theorem Rmatch_epsilon_iff {w : List Char} : Rmatch .epsilon w ↔ w = [] := by
  constructor
  · intro h; cases h; rfl
  · rintro rfl; exact .epsilon

theorem Rmatch_char_iff {c : Char} {w : List Char} :
    Rmatch (.char c) w ↔ w = [c] := by
  constructor
  · intro h; cases h; rfl
  · rintro rfl; exact .char c

theorem Rmatch_anychar_iff {w : List Char} :
    Rmatch .anychar w ↔ ∃ c, w = [c] ∧ isAny c = true := by
  constructor
  · intro h; cases h with | anychar c hc => exact ⟨c, rfl, hc⟩
  · rintro ⟨c, rfl, hc⟩; exact .anychar c hc

theorem Rmatch_wschar_iff {w : List Char} :
    Rmatch .wschar w ↔ ∃ c, w = [c] ∧ isWs c = true := by
  constructor
  · intro h; cases h with | wschar c hc => exact ⟨c, rfl, hc⟩
  · rintro ⟨c, rfl, hc⟩; exact .wschar c hc

theorem Rmatch_cat_iff {r1 r2 : Rgx} {w : List Char} :
    Rmatch (.cat r1 r2) w ↔
      ∃ p1 p2, w = p1 ++ p2 ∧ Rmatch r1 p1 ∧ Rmatch r2 p2 := by
  constructor
  · intro h; cases h with | cat h1 h2 => exact ⟨_, _, rfl, h1, h2⟩
  · rintro ⟨p1, p2, rfl, h1, h2⟩; exact h1.cat h2

theorem Rmatch_alt_iff {r1 r2 : Rgx} {w : List Char} :
    Rmatch (.alt r1 r2) w ↔ Rmatch r1 w ∨ Rmatch r2 w := by
  constructor
  · intro h
    cases h with
    | altL h => exact Or.inl h
    | altR h => exact Or.inr h
  · rintro (h | h)
    · exact .altL h
    · exact .altR h

theorem Rmatch_opt_iff {r : Rgx} {w : List Char} :
    Rmatch (.opt r) w ↔ w = [] ∨ Rmatch r w := by
  constructor
  · intro h
    cases h with
    | optNone => exact Or.inl rfl
    | optSome h => exact Or.inr h
  · rintro (rfl | h)
    · exact .optNone
    · exact .optSome h

theorem Rmatch_plus_iff {r : Rgx} {w : List Char} :
    Rmatch (.plus r) w ↔
      ∃ p1 p2, w = p1 ++ p2 ∧ Rmatch r p1 ∧ Rmatch (.star r) p2 := by
  constructor
  · intro h; cases h with | plus h1 h2 => exact ⟨_, _, rfl, h1, h2⟩
  · rintro ⟨p1, p2, rfl, h1, h2⟩; exact h1.plus h2

theorem Rmatch_star_inv {s : Rgx} {w : List Char} (h : Rmatch s w) :
    ∀ r, s = .star r →
      w = [] ∨ ∃ p1 p2, w = p1 ++ p2 ∧ p1 ≠ [] ∧ Rmatch r p1 ∧
        Rmatch (.star r) p2 := by
  induction h with
  | epsilon => intro r hr; simp at hr
  | char c => intro r hr; simp at hr
  | anychar c hc => intro r hr; simp at hr
  | wschar c hc => intro r hr; simp at hr
  | cat h1 h2 ih1 ih2 => intro r hr; simp at hr
  | altL h ih => intro r hr; simp at hr
  | altR h ih => intro r hr; simp at hr
  | plus h1 h2 ih1 ih2 => intro r hr; simp at hr
  | optNone => intro r hr; simp at hr
  | optSome h ih => intro r hr; simp at hr
  | starNil => intro r hr; exact Or.inl rfl
  | starCons h1 h2 ih1 ih2 =>
      rename_i r0 p1 p2
      intro r hr
      injection hr with hrr
      subst hrr
      by_cases hp1 : p1 = []
      · subst hp1; simpa using ih2 r0 rfl
      · exact Or.inr ⟨p1, p2, rfl, hp1, h1, h2⟩

theorem Rmatch_star_cons {r : Rgx} {c : Char} {p : List Char}
    (h : Rmatch (.star r) (c :: p)) :
    ∃ p1 p2, p = p1 ++ p2 ∧ Rmatch r (c :: p1) ∧ Rmatch (.star r) p2 := by
  rcases Rmatch_star_inv h r rfl with h0 | ⟨p1, p2, heq, hne, h1, h2⟩
  · exact absurd h0 (by simp)
  · cases p1 with
    | nil => exact absurd rfl hne
    | cons c1 p1 =>
        rw [List.cons_append] at heq
        injection heq with hc hp
        subst hc
        exact ⟨p1, p2, hp, h1, h2⟩

theorem nullable_iff {r : Rgx} : nullable r = true ↔ Rmatch r [] := by
  induction r with
  | emp => simp [nullable, Rmatch_emp]
  | epsilon => simp [nullable, Rmatch_epsilon_iff]
  | char c => simp [nullable, Rmatch_char_iff]
  | anychar => simp [nullable, Rmatch_anychar_iff]
  | wschar => simp [nullable, Rmatch_wschar_iff]
  | cat r1 r2 ih1 ih2 =>
      simp only [nullable, Bool.and_eq_true, ih1, ih2, Rmatch_cat_iff]
      constructor
      · rintro ⟨h1, h2⟩; exact ⟨[], [], rfl, h1, h2⟩
      · rintro ⟨p1, p2, heq, h1, h2⟩
        rcases List.append_eq_nil.mp heq.symm with ⟨rfl, rfl⟩
        exact ⟨h1, h2⟩
  | alt r1 r2 ih1 ih2 =>
      simp [nullable, ih1, ih2, Rmatch_alt_iff]
  | star r ih =>
      simp only [nullable, true_iff]; exact .starNil
  | plus r ih =>
      simp only [nullable, ih, Rmatch_plus_iff]
      constructor
      · intro h; exact ⟨[], [], rfl, h, .starNil⟩
      · rintro ⟨p1, p2, heq, h1, h2⟩
        rcases List.append_eq_nil.mp heq.symm with ⟨rfl, rfl⟩
        exact h1
  | opt r ih =>
      simp only [nullable, true_iff, Rmatch_opt_iff]; exact Or.inl trivial

theorem deriv_iff {r : Rgx} {c : Char} {p : List Char} :
    Rmatch (deriv r c) p ↔ Rmatch r (c :: p) := by
  induction r generalizing p with
  | emp => simp [deriv, Rmatch_emp]
  | epsilon => simp [deriv, Rmatch_emp, Rmatch_epsilon_iff]
  | char d =>
      by_cases hdc : d = c
      · subst hdc
        simp [deriv, Rmatch_epsilon_iff, Rmatch_char_iff]
      · simp only [deriv, if_neg hdc, Rmatch_char_iff]
        constructor
        · intro h; exact absurd h Rmatch_emp
        · intro h
          injection h with h1 h2
          exact absurd h1.symm hdc
  | anychar =>
      by_cases hc : isAny c
      · simp only [deriv, if_pos hc, Rmatch_epsilon_iff, Rmatch_anychar_iff]
        constructor
        · rintro rfl; exact ⟨c, rfl, hc⟩
        · rintro ⟨d, hd, _⟩; injection hd with h1 h2
      · simp only [deriv, if_neg hc, Rmatch_anychar_iff]
        constructor
        · intro h; exact absurd h Rmatch_emp
        · rintro ⟨d, hd, hd2⟩
          injection hd with h1 h2
          exact absurd (h1 ▸ hd2) hc
  | wschar =>
      by_cases hc : isWs c
      · simp only [deriv, if_pos hc, Rmatch_epsilon_iff, Rmatch_wschar_iff]
        constructor
        · rintro rfl; exact ⟨c, rfl, hc⟩
        · rintro ⟨d, hd, _⟩; injection hd with h1 h2
      · simp only [deriv, if_neg hc, Rmatch_wschar_iff]
        constructor
        · intro h; exact absurd h Rmatch_emp
        · rintro ⟨d, hd, hd2⟩
          injection hd with h1 h2
          exact absurd (h1 ▸ hd2) hc
  | cat r1 r2 ih1 ih2 =>
      by_cases hn : nullable r1
      · simp only [deriv, if_pos hn, Rmatch_alt_iff, Rmatch_cat_iff]
        constructor
        · rintro (⟨p1, p2, rfl, h1, h2⟩ | h)
          · exact ⟨c :: p1, p2, rfl, ih1.mp h1, h2⟩
          · exact ⟨[], c :: p, rfl, nullable_iff.mp hn, ih2.mp h⟩
        · rintro ⟨p1, p2, heq, h1, h2⟩
          cases p1 with
          | nil =>
              right
              rw [List.nil_append] at heq
              subst heq
              exact ih2.mpr h2
          | cons c1 p1 =>
              left
              rw [List.cons_append] at heq
              injection heq with hc hp
              subst hc
              exact ⟨p1, p2, hp, ih1.mpr h1, h2⟩
      · simp only [deriv, if_neg hn, Rmatch_cat_iff]
        constructor
        · rintro ⟨p1, p2, rfl, h1, h2⟩
          exact ⟨c :: p1, p2, rfl, ih1.mp h1, h2⟩
        · rintro ⟨p1, p2, heq, h1, h2⟩
          cases p1 with
          | nil => exact absurd (nullable_iff.mpr h1) hn
          | cons c1 p1 =>
              rw [List.cons_append] at heq
              injection heq with hc hp
              subst hc
              exact ⟨p1, p2, hp, ih1.mpr h1, h2⟩
  | alt r1 r2 ih1 ih2 =>
      simp [deriv, Rmatch_alt_iff, ih1, ih2]
  | star r ih =>
      simp only [deriv, Rmatch_cat_iff]
      constructor
      · rintro ⟨p1, p2, rfl, h1, h2⟩
        exact (List.cons_append c p1 p2) ▸ ((ih.mp h1).starCons h2)
      · intro h
        rcases Rmatch_star_cons h with ⟨p1, p2, heq, h1, h2⟩
        exact ⟨p1, p2, heq, ih.mpr h1, h2⟩
  | plus r ih =>
      simp only [deriv, Rmatch_cat_iff, Rmatch_plus_iff]
      constructor
      · rintro ⟨p1, p2, rfl, h1, h2⟩
        exact ⟨c :: p1, p2, rfl, ih.mp h1, h2⟩
      · rintro ⟨p1, p2, heq, h1, h2⟩
        cases p1 with
        | nil =>
            rw [List.nil_append] at heq
            subst heq
            rcases Rmatch_star_cons h2 with ⟨q1, q2, hq, hq1, hq2⟩
            exact ⟨q1, q2, hq, ih.mpr hq1, hq2⟩
        | cons c1 p1 =>
            rw [List.cons_append] at heq
            injection heq with hc hp
            subst hc
            exact ⟨p1, p2, hp, ih.mpr h1, h2⟩
  | opt r ih =>
      simp [deriv, Rmatch_opt_iff, ih]

theorem matchesPref_iff {r : Rgx} {cs : List Char} :
    matchesPref r cs = true ↔ ∃ p q, cs = p ++ q ∧ Rmatch r p := by
  induction cs generalizing r with
  | nil =>
      simp only [matchesPref, nullable_iff]
      constructor
      · intro h; exact ⟨[], [], rfl, h⟩
      · rintro ⟨p, q, heq, h⟩
        rcases List.append_eq_nil.mp heq.symm with ⟨rfl, rfl⟩
        exact h
  | cons c cs ih =>
      simp only [matchesPref, Bool.or_eq_true, nullable_iff, ih]
      constructor
      · rintro (h | ⟨p, q, rfl, h⟩)
        · exact ⟨[], c :: cs, rfl, h⟩
        · exact ⟨c :: p, q, rfl, deriv_iff.mp h⟩
      · rintro ⟨p, q, heq, h⟩
        cases p with
        | nil =>
            rw [List.nil_append] at heq
            exact Or.inl h
        | cons c1 p =>
            rw [List.cons_append] at heq
            injection heq with hc hp
            subst hc
            exact Or.inr ⟨p, q, hp, deriv_iff.mpr h⟩

theorem rsearch_iff {r : Rgx} {cs : List Char} :
    rsearch r cs = true ↔
      ∃ pre p post, cs = pre ++ p ++ post ∧ Rmatch r p := by
  induction cs with
  | nil =>
      simp only [rsearch, matchesPref_iff]
      constructor
      · rintro ⟨p, q, heq, h⟩
        exact ⟨[], p, q, by simpa using heq, h⟩
      · rintro ⟨pre, p, post, heq, h⟩
        have h1 := List.append_eq_nil.mp heq.symm
        rcases List.append_eq_nil.mp h1.1 with ⟨rfl, rfl⟩
        exact ⟨[], [], rfl, h⟩
  | cons c cs ih =>
      simp only [rsearch, Bool.or_eq_true, matchesPref_iff, ih]
      constructor
      · rintro (⟨p, q, heq, h⟩ | ⟨pre, p, post, heq, h⟩)
        · exact ⟨[], p, q, by simpa using heq, h⟩
        · exact ⟨c :: pre, p, post, by simp [heq], h⟩
      · rintro ⟨pre, p, post, heq, h⟩
        cases pre with
        | nil =>
            left
            rw [List.nil_append] at heq
            exact ⟨p, post, heq, h⟩
        | cons c1 pre =>
            right
            rw [List.cons_append, List.cons_append] at heq
            injection heq with hc hp
            subst hc
            exact ⟨pre, p, post, hp, h⟩

theorem Rmatch_lit_iff {w p : List Char} : Rmatch (lit w) p ↔ p = w := by
  induction w generalizing p with
  | nil => simp [lit, Rmatch_epsilon_iff]
  | cons c w ih =>
      simp only [lit, Rmatch_cat_iff, Rmatch_char_iff, ih]
      constructor
      · rintro ⟨p1, p2, rfl, rfl, rfl⟩; rfl
      · rintro rfl; exact ⟨[c], w, rfl, rfl, rfl⟩

theorem Rmatch_star_ws_iff {w : List Char} :
    Rmatch (.star .wschar) w ↔ ∀ c ∈ w, isWs c = true := by
  induction w with
  | nil => simp; exact .starNil
  | cons c cs ih =>
      constructor
      · intro h
        rcases Rmatch_star_cons h with ⟨p1, p2, heq, h1, h2⟩
        rcases Rmatch_wschar_iff.mp h1 with ⟨d, hd, hdw⟩
        injection hd with h3 h4
        subst h3
        subst h4
        rw [List.nil_append] at heq
        subst heq
        intro a ha
        rcases List.mem_cons.mp ha with rfl | ha
        · exact hdw
        · exact ih.mp h2 a ha
      · intro h
        have h1 : Rmatch Rgx.wschar [c] := .wschar c (h c (by simp))
        have h2 : Rmatch (.star .wschar) cs :=
          ih.mpr (fun a ha => h a (List.mem_cons_of_mem c ha))
        exact h1.starCons h2

theorem Rmatch_plus_ws_iff {w : List Char} :
    Rmatch (.plus .wschar) w ↔ w ≠ [] ∧ ∀ c ∈ w, isWs c = true := by
  rw [Rmatch_plus_iff]
  constructor
  · rintro ⟨p1, p2, rfl, h1, h2⟩
    rcases Rmatch_wschar_iff.mp h1 with ⟨d, rfl, hdw⟩
    refine ⟨by simp, ?_⟩
    intro a ha
    rcases List.mem_cons.mp ha with rfl | ha
    · exact hdw
    · exact Rmatch_star_ws_iff.mp h2 a ha
  · rintro ⟨hne, h⟩
    cases w with
    | nil => exact absurd rfl hne
    | cons c cs =>
        refine ⟨[c], cs, rfl, .wschar c (h c (by simp)), ?_⟩
        exact Rmatch_star_ws_iff.mpr (fun a ha => h a (List.mem_cons_of_mem c ha))

theorem Rmatch_mva_iff {p : List Char} :
    Rmatch multiValuedAttributePattern p ↔
      ∃ mid kw, p = "id".toList ++ mid ++ kw ∧ mid ≠ [] ∧
        (∀ c ∈ mid, isWs c = true) ∧
        (kw = "varchar".toList ∨ kw = "text".toList ∨ kw = "regexp".toList) := by
  constructor
  · intro h
    rcases Rmatch_alt_iff.mp h with h | h
    · rcases Rmatch_cat_iff.mp h with ⟨p1, p2, rfl, h1, h2⟩
      obtain rfl := Rmatch_lit_iff.mp h1
      rcases Rmatch_cat_iff.mp h2 with ⟨q1, q2, rfl, hq1, hq2⟩
      obtain rfl := Rmatch_lit_iff.mp hq2
      obtain ⟨hne, hws⟩ := Rmatch_plus_ws_iff.mp hq1
      exact ⟨q1, _, by simp [List.append_assoc, lits], hne, hws, Or.inl rfl⟩
    rcases Rmatch_alt_iff.mp h with h | h
    · rcases Rmatch_cat_iff.mp h with ⟨p1, p2, rfl, h1, h2⟩
      obtain rfl := Rmatch_lit_iff.mp h1
      rcases Rmatch_cat_iff.mp h2 with ⟨q1, q2, rfl, hq1, hq2⟩
      obtain rfl := Rmatch_lit_iff.mp hq2
      obtain ⟨hne, hws⟩ := Rmatch_plus_ws_iff.mp hq1
      exact ⟨q1, _, by simp [List.append_assoc, lits], hne, hws, Or.inr (Or.inl rfl)⟩
    · rcases Rmatch_cat_iff.mp h with ⟨p1, p2, rfl, h1, h2⟩
      obtain rfl := Rmatch_lit_iff.mp h1
      rcases Rmatch_cat_iff.mp h2 with ⟨q1, q2, rfl, hq1, hq2⟩
      obtain rfl := Rmatch_lit_iff.mp hq2
      obtain ⟨hne, hws⟩ := Rmatch_plus_ws_iff.mp hq1
      exact ⟨q1, _, by simp [List.append_assoc, lits], hne, hws, Or.inr (Or.inr rfl)⟩
  · rintro ⟨mid, kw, rfl, hne, hws, hkw⟩
    have hid : Rmatch (lits "id") ("id".toList) := Rmatch_lit_iff.mpr rfl
    have hmid : Rmatch (.plus .wschar) mid := Rmatch_plus_ws_iff.mpr ⟨hne, hws⟩
    rcases hkw with rfl | rfl | rfl
    · refine .altL ?_
      rw [List.append_assoc]
      exact hid.cat (hmid.cat (Rmatch_lit_iff.mpr rfl))
    · refine .altR (.altL ?_)
      rw [List.append_assoc]
      exact hid.cat (hmid.cat (Rmatch_lit_iff.mpr rfl))
    · refine .altR (.altR ?_)
      rw [List.append_assoc]
      exact hid.cat (hmid.cat (Rmatch_lit_iff.mpr rfl))

theorem rsearch_mva_iff {s : List Char} :
    rsearch multiValuedAttributePattern s = true ↔ HasIdTypeOcc s := by
  rw [rsearch_iff]
  constructor
  · rintro ⟨pre, p, post, rfl, h⟩
    rcases Rmatch_mva_iff.mp h with ⟨mid, kw, rfl, hne, hws, hkw⟩
    exact ⟨pre, mid, kw, post, by simp [List.append_assoc], hne, hws, hkw⟩
  · rintro ⟨pre, mid, kw, post, rfl, hne, hws, hkw⟩
    exact ⟨pre, "id".toList ++ mid ++ kw, post, by simp [List.append_assoc],
      Rmatch_mva_iff.mpr ⟨mid, kw, rfl, hne, hws, hkw⟩⟩

theorem takeWhile_collapse :
    ∀ cs : List Char,
      (collapse cs).takeWhile (fun c => c ≠ ' ') =
        cs.takeWhile (fun c => c ≠ ' ')
  | [] => rfl
  | [c] => by
      by_cases h : c = ' ' <;>
        simp [collapse, h, List.takeWhile_cons]
  | c :: d :: cs => by
      by_cases h1 : c = ' '
      · by_cases h2 : d = ' '
        · rw [show collapse (c :: d :: cs) = collapse (d :: cs) by
            simp [collapse, h1, h2]]
          rw [takeWhile_collapse (d :: cs)]
          simp [List.takeWhile_cons, h1, h2]
        · rw [show collapse (c :: d :: cs) = c :: collapse (d :: cs) by
            simp [collapse, h1, h2]]
          simp [List.takeWhile_cons, h1]
      · rw [show collapse (c :: d :: cs) = c :: collapse (d :: cs) by
          simp [collapse, h1]]
        simp only [List.takeWhile_cons, takeWhile_collapse (d :: cs)]

theorem CheckPattern_cases (state : Configuration) (sql : List Char)
    (pat : Rgx) (level : LogLevel) (ptype : PatternType)
    (title message : String) (b : Bool) :
    CheckPattern state sql pat level ptype title message b = [] ∨
    CheckPattern state sql pat level ptype title message b =
      [⟨title, level, ptype, message⟩] := by
  by_cases h : (if b then rsearch pat sql else !(rsearch pat sql)) = true
  · right; simp [CheckPattern, h]
  · left; simp [CheckPattern, h]

theorem CheckSelectStar_cases (cfg : Configuration) (s : List Char) :
    CheckSelectStar cfg s = [] ∨ ∃ m, CheckSelectStar cfg s =
      [⟨"SELECT *", .LOG_LEVEL_ERROR, .PATTERN_TYPE_QUERY, m⟩] := by
  rcases CheckPattern_cases cfg s selectStarPattern .LOG_LEVEL_ERROR
      .PATTERN_TYPE_QUERY "SELECT *" selectStarMessage true with h | h
  · exact Or.inl h
  · exact Or.inr ⟨selectStarMessage, h⟩

theorem CheckMultiValuedAttribute_cases (cfg : Configuration) (s : List Char) :
    CheckMultiValuedAttribute cfg s = [] ∨ ∃ m, CheckMultiValuedAttribute cfg s =
      [⟨"Multi-Valued Attribute", .LOG_LEVEL_ERROR, .PATTERN_TYPE_CREATION, m⟩] := by
  rcases CheckPattern_cases cfg s multiValuedAttributePattern .LOG_LEVEL_ERROR
      .PATTERN_TYPE_CREATION "Multi-Valued Attribute" multiValuedAttributeMessage
      true with h | h
  · exact Or.inl h
  · exact Or.inr ⟨multiValuedAttributeMessage, h⟩

theorem CheckRecursiveDependency_cases (cfg : Configuration) (s : List Char) :
    CheckRecursiveDependency cfg s = [] ∨ ∃ m, CheckRecursiveDependency cfg s =
      [⟨"Recursive Dependency", .LOG_LEVEL_ERROR, .PATTERN_TYPE_CREATION, m⟩] := by
  by_cases h : GetTableName s = []
  · left; simp [CheckRecursiveDependency, h]
  · have hb : CheckRecursiveDependency cfg s =
        CheckPattern cfg s
          (.cat (lits "references")
            (.cat (.plus .wschar) (compileSpliced (GetTableName s))))
          .LOG_LEVEL_ERROR .PATTERN_TYPE_CREATION "Recursive Dependency"
          recursiveDependencyMessage true := by
      simp [CheckRecursiveDependency, h]
    rw [hb]
    rcases CheckPattern_cases cfg s
        (.cat (lits "references")
          (.cat (.plus .wschar) (compileSpliced (GetTableName s))))
        .LOG_LEVEL_ERROR .PATTERN_TYPE_CREATION "Recursive Dependency"
        recursiveDependencyMessage true with h2 | h2
    · exact Or.inl h2
    · exact Or.inr ⟨recursiveDependencyMessage, h2⟩

theorem CheckPrimaryKeyExists_cases (cfg : Configuration) (s : List Char) :
    CheckPrimaryKeyExists cfg s = [] ∨ ∃ m, CheckPrimaryKeyExists cfg s =
      [⟨"Primary Key Exists", .LOG_LEVEL_WARN, .PATTERN_TYPE_CREATION, m⟩] := by
  by_cases h : IsCreateStatement s = false
  · left; simp [CheckPrimaryKeyExists, h]
  · have hb : CheckPrimaryKeyExists cfg s =
        CheckPattern cfg s (lits "primary key") .LOG_LEVEL_WARN
          .PATTERN_TYPE_CREATION "Primary Key Exists" primaryKeyExistsMessage
          false := by
      simp [CheckPrimaryKeyExists, h]
    rw [hb]
    rcases CheckPattern_cases cfg s (lits "primary key") .LOG_LEVEL_WARN
        .PATTERN_TYPE_CREATION "Primary Key Exists" primaryKeyExistsMessage
        false with h2 | h2
    · exact Or.inl h2
    · exact Or.inr ⟨primaryKeyExistsMessage, h2⟩

theorem CheckGenericPrimaryKey_cases (cfg : Configuration) (s : List Char) :
    CheckGenericPrimaryKey cfg s = [] ∨ ∃ m, CheckGenericPrimaryKey cfg s =
      [⟨"Generic Primary Key", .LOG_LEVEL_ERROR, .PATTERN_TYPE_CREATION, m⟩] := by
  by_cases h : IsCreateStatement s = false
  · left; simp [CheckGenericPrimaryKey, h]
  · have hb : CheckGenericPrimaryKey cfg s =
        CheckPattern cfg s genericPrimaryKeyPattern .LOG_LEVEL_ERROR
          .PATTERN_TYPE_CREATION "Generic Primary Key" genericPrimaryKeyMessage
          true := by
      simp [CheckGenericPrimaryKey, h]
    rw [hb]
    rcases CheckPattern_cases cfg s genericPrimaryKeyPattern .LOG_LEVEL_ERROR
        .PATTERN_TYPE_CREATION "Generic Primary Key" genericPrimaryKeyMessage
        true with h2 | h2
    · exact Or.inl h2
    · exact Or.inr ⟨genericPrimaryKeyMessage, h2⟩

theorem CheckForeignKeyExists_cases (cfg : Configuration) (s : List Char) :
    CheckForeignKeyExists cfg s = [] ∨ ∃ m, CheckForeignKeyExists cfg s =
      [⟨"Foreign Key Exists", .LOG_LEVEL_WARN, .PATTERN_TYPE_CREATION, m⟩] := by
  by_cases h : IsCreateStatement s = false
  · left; simp [CheckForeignKeyExists, h]
  · have hb : CheckForeignKeyExists cfg s =
        CheckPattern cfg s (lits "foreign key") .LOG_LEVEL_WARN
          .PATTERN_TYPE_CREATION "Foreign Key Exists" foreignKeyExistsMessage
          false := by
      simp [CheckForeignKeyExists, h]
    rw [hb]
    rcases CheckPattern_cases cfg s (lits "foreign key") .LOG_LEVEL_WARN
        .PATTERN_TYPE_CREATION "Foreign Key Exists" foreignKeyExistsMessage
        false with h2 | h2
    · exact Or.inl h2
    · exact Or.inr ⟨foreignKeyExistsMessage, h2⟩

theorem foldr_filter_sublist (cfg : Configuration) (s : List Char)
    (p : String × (Configuration → List Char → List Diagnostic) → Bool)
    (L : List (String × (Configuration → List Char → List Diagnostic)))
    (T : List (String × LogLevel × PatternType))
    (h : List.Forall₂ (fun r e => r.2 cfg s = [] ∨ ∃ m,
      r.2 cfg s = [⟨e.1, e.2.1, e.2.2, m⟩]) L T) :
    (((L.filter p).foldr (fun r acc => r.2 cfg s ++ acc) []).map
      (fun d => (d.title, d.level, d.ptype))).Sublist T := by
  induction h with
  | nil => simp
  | cons hre hrest ih =>
      rename_i r e L' T'
      by_cases hp : p r = true
      · rw [List.filter_cons_of_pos hp]
        simp only [List.foldr_cons, List.map_append]
        rcases hre with h0 | ⟨m, h0⟩
        · rw [h0]
          simpa using List.Sublist.cons e ih
        · rw [h0]
          simpa using List.Sublist.cons₂ (e.1, e.2.1, e.2.2) ih
      · rw [List.filter_cons_of_neg (by simpa using hp)]
        exact List.Sublist.cons e ih

theorem registry_forall2 (cfg : Configuration) (s : List Char) :
    List.Forall₂ (fun r e => r.2 cfg s = [] ∨ ∃ m,
      r.2 cfg s = [⟨e.1, e.2.1, e.2.2, m⟩]) RuleRegistry ruleTable := by
  refine .cons (CheckSelectStar_cases cfg s)
    (.cons (CheckMultiValuedAttribute_cases cfg s)
      (.cons (CheckRecursiveDependency_cases cfg s)
        (.cons (CheckPrimaryKeyExists_cases cfg s)
          (.cons (CheckGenericPrimaryKey_cases cfg s)
            (.cons (CheckForeignKeyExists_cases cfg s) .nil)))))

set_option maxRecDepth 10000

/-- Claim C1: every statement whose text does not contain the substring
"create table" gets zero diagnostics from each of the four creation-gated
rules (Primary Key Exists, Generic Primary Key, Foreign Key Exists,
Recursive Dependency): the gate is a hard skip, so in particular the two
absence-means-violation rules do not fire on non-creation statements. -/
theorem claim_C1 (cfg : Configuration) (s : List Char)
    (h : IsCreateStatement s = false) :
    CheckPrimaryKeyExists cfg s = [] ∧ CheckGenericPrimaryKey cfg s = [] ∧
    CheckForeignKeyExists cfg s = [] ∧ CheckRecursiveDependency cfg s = [] := by
  have hname : GetTableName s = [] := by
    unfold GetTableName
    unfold IsCreateStatement at h
    rcases hx : afterSubstr tableTemplate s with _ | rest
    · rfl
    · rw [hx] at h; simp at h
  refine ⟨?_, ?_, ?_, ?_⟩
  · simp [CheckPrimaryKeyExists, h]
  · simp [CheckGenericPrimaryKey, h]
  · simp [CheckForeignKeyExists, h]
  · simp [CheckRecursiveDependency, hname]

/-- Witness for C1 at the concrete non-creation statement
"select * from Users". -/
theorem claim_C1_witness :
    IsCreateStatement ("select * from Users").toList = false ∧
    (CheckPrimaryKeyExists allRulesEnabled ("select * from Users").toList = [] ∧
     CheckGenericPrimaryKey allRulesEnabled ("select * from Users").toList = [] ∧
     CheckForeignKeyExists allRulesEnabled ("select * from Users").toList = [] ∧
     CheckRecursiveDependency allRulesEnabled ("select * from Users").toList = []) :=
  ⟨by decide, claim_C1 allRulesEnabled (("select * from Users").toList) (by decide)⟩

/-- Claim C2: the Recursive Dependency rule emits nothing whenever the
extracted table name is empty (even if "create table" is present); on
"create table Category (id int, parent_id int, references Category)" it
emits exactly one "Recursive Dependency" diagnostic with severity ERROR,
and on the otherwise-identical statement referencing a different table it
emits none. -/
theorem claim_C2 :
    (∀ (cfg : Configuration) (s : List Char), GetTableName s = [] →
        CheckRecursiveDependency cfg s = []) ∧
    CheckRecursiveDependency allRulesEnabled
        ("create table Category (id int, parent_id int, references Category)").toList =
      [⟨"Recursive Dependency", .LOG_LEVEL_ERROR, .PATTERN_TYPE_CREATION,
        recursiveDependencyMessage⟩] ∧
    CheckRecursiveDependency allRulesEnabled
        ("create table Category (id int, parent_id int, references Elephant)").toList =
      [] := by
  refine ⟨?_, by decide, by decide⟩
  intro cfg s h
  simp [CheckRecursiveDependency, h]

/-- Witness for C2's universally quantified part at the statement
"create table", whose extracted table name is empty although the creation
keyword is present. -/
theorem claim_C2_witness :
    GetTableName ("create table").toList = [] ∧
    CheckRecursiveDependency allRulesEnabled ("create table").toList = [] :=
  ⟨by decide, claim_C2.1 allRulesEnabled (("create table").toList) (by decide)⟩

/-- Counterexample to claim C3: on the unspaced variant
"create table Users(id int, name varchar(50))" the extracted name is
"Users(id" — neither "Users" nor "Users" followed by "(" and nothing
else. -/
theorem claim_C3_counterexample :
    GetTableName ("create table Users(id int, name varchar(50))").toList =
      "Users(id".toList ∧
    "Users(id".toList ≠ "Users".toList ∧
    "Users(id".toList ≠ "Users(".toList := by decide

/-- Claim C3 as amended: the spaced variant yields "Users"; the unspaced
variant yields "Users(id" — the first space-delimited token, which includes
the open parenthesis and the first column name. -/
theorem claim_C3 :
    GetTableName ("create table Users (id int, name varchar(50))").toList =
      "Users".toList ∧
    GetTableName ("create table Users(id int, name varchar(50))").toList =
      "Users(id".toList := by decide

/-- Counterexample to claim C4: a tab between the keyword and the
identifier is not trimmed (the normalisation pattern covers only the space
character), so the extracted name keeps the leading tab. -/
theorem claim_C4_counterexample :
    GetTableName ("create table\tUsers (id int)").toList = "\tUsers".toList ∧
    GetTableName ("create table\tUsers (id int)").toList ≠ "Users".toList := by
  decide

/-- Claim C4 as amended: for every statement, if the text does not contain
"create table" the extracted name is empty; otherwise it is the first
SPACE-delimited token of the text after the first occurrence — leading
spaces dropped, token cut at the next space.  Only the space character
counts as whitespace; the code's trailing-space trimming and interior-run
collapsing cannot affect this first token. -/
theorem claim_C4 (s : List Char) : GetTableName s = GetTableNameTokenSpec s := by
  unfold GetTableName GetTableNameTokenSpec
  cases hx : afterSubstr tableTemplate s with
  | none => rfl
  | some rest =>
      simpa [stripSpaces] using
        takeWhile_collapse (rest.dropWhile (fun c => c = ' '))

/-- Claim C5: evaluating "select * from Users" with all rules enabled
yields exactly one diagnostic in total, titled "SELECT *", with severity
ERROR. -/
theorem claim_C5 :
    (evaluate allRulesEnabled ("select * from Users").toList).map
      (fun d => (d.title, d.level)) = [("SELECT *", .LOG_LEVEL_ERROR)] := by
  decide

/-- Claim C6: evaluating "create table Users (id int, name varchar(50))"
yields exactly one "Primary Key Exists" diagnostic, with severity WARN,
and exactly one "Generic Primary Key" diagnostic, with severity ERROR. -/
theorem claim_C6 :
    ((evaluate allRulesEnabled
        ("create table Users (id int, name varchar(50))").toList).filter
        (fun d => d.title == "Primary Key Exists")).map (fun d => d.level) =
      [.LOG_LEVEL_WARN] ∧
    ((evaluate allRulesEnabled
        ("create table Users (id int, name varchar(50))").toList).filter
        (fun d => d.title == "Generic Primary Key")).map (fun d => d.level) =
      [.LOG_LEVEL_ERROR] := by decide

/-- Claim C7: evaluating
"create table Users (user_id int primary key, name varchar(50))" yields
zero "Primary Key Exists" diagnostics and zero "Generic Primary Key"
diagnostics. -/
theorem claim_C7 :
    ((evaluate allRulesEnabled
        ("create table Users (user_id int primary key, name varchar(50))").toList).filter
        (fun d => d.title == "Primary Key Exists")) = [] ∧
    ((evaluate allRulesEnabled
        ("create table Users (user_id int primary key, name varchar(50))").toList).filter
        (fun d => d.title == "Generic Primary Key")) = [] := by decide

/-- Counterexample to claim C8: the table name "a.b" contains the
metacharacter ".", and on
"create table a.b (x int, references axb)" the Recursive Dependency rule
fires (the unescaped "." matches "x") although the statement contains no
occurrence of "references" followed by whitespace and the literal name
"a.b". -/
theorem claim_C8_counterexample :
    (CheckRecursiveDependency allRulesEnabled
        ("create table a.b (x int, references axb)").toList).map
      (fun d => d.title) = ["Recursive Dependency"] ∧
    rsearch (.cat (lits "references") (.cat (.plus .wschar) (lits "a.b")))
      ("create table a.b (x int, references axb)").toList = false := by decide

/-- Claim C8 as amended: the extracted table name is interpolated into the
pattern without any escaping, so pattern metacharacters keep their pattern
meaning: on "create table a.b (x int, references axb)" — extracted name
"a.b" — the rule emits its ERROR diagnostic even though the statement
nowhere contains "references", whitespace and the literal name "a.b". -/
theorem claim_C8 :
    GetTableName ("create table a.b (x int, references axb)").toList =
      "a.b".toList ∧
    CheckRecursiveDependency allRulesEnabled
        ("create table a.b (x int, references axb)").toList =
      [⟨"Recursive Dependency", .LOG_LEVEL_ERROR, .PATTERN_TYPE_CREATION,
        recursiveDependencyMessage⟩] ∧
    rsearch (.cat (lits "references") (.cat (.plus .wschar) (lits "a.b")))
      ("create table a.b (x int, references axb)").toList = false := by decide

/-- Counterexample to claim C9: the baseline rule registry does not contain
seven rules — `list.cpp` defines six checker functions and the spec's own
enumeration lists six. -/
theorem claim_C9_counterexample : ¬ RuleRegistry.length = 7 := by decide

/-- Claim C9 as amended: the baseline rule registry contains exactly six
rules with pairwise distinct titles; the registration-order table of
titles, severities and categories is `ruleTable`, and for every
configuration and statement the emitted diagnostics carry each rule's own
title, severity and category and appear in registration order (their
projection is a sublist of `ruleTable`). -/
theorem claim_C9 :
    RuleRegistry.length = 6 ∧
    (RuleRegistry.map Prod.fst).Nodup ∧
    ruleTable.map Prod.fst = RuleRegistry.map Prod.fst ∧
    ∀ (cfg : Configuration) (s : List Char),
      ((evaluate cfg s).map (fun d => (d.title, d.level, d.ptype))).Sublist
        ruleTable := by
  refine ⟨rfl, by decide, by decide, ?_⟩
  intro cfg s
  have h := foldr_filter_sublist cfg s (fun r => cfg.enabled r.1)
    RuleRegistry ruleTable (registry_forall2 cfg s)
  simpa [evaluate] using h

/-- Claim C10: the Multi-Valued Attribute rule is not creation-gated and
does not require "id" to be a whole identifier — for every configuration
and statement it emits exactly its one ERROR/CREATION diagnostic iff the
text contains "id" immediately followed by whitespace and then "varchar",
"text" or "regexp", and emits nothing otherwise. -/
theorem claim_C10 (cfg : Configuration) (s : List Char) :
    (CheckMultiValuedAttribute cfg s = [multiValuedAttributeDiagnostic] ↔
      HasIdTypeOcc s) ∧
    (CheckMultiValuedAttribute cfg s = [multiValuedAttributeDiagnostic] ∨
      CheckMultiValuedAttribute cfg s = []) := by
  have hbody : CheckMultiValuedAttribute cfg s =
      (if rsearch multiValuedAttributePattern s = true then
        [multiValuedAttributeDiagnostic] else []) := by
    simp [CheckMultiValuedAttribute, CheckPattern, multiValuedAttributeDiagnostic]
  by_cases h : rsearch multiValuedAttributePattern s = true
  · rw [hbody, if_pos h]
    exact ⟨⟨fun _ => rsearch_mva_iff.mp h, fun _ => rfl⟩, Or.inl rfl⟩
  · rw [hbody, if_neg h]
    constructor
    · constructor
      · intro hx; exact absurd hx (by simp)
      · intro hocc; exact absurd (rsearch_mva_iff.mpr hocc) h
    · exact Or.inr rfl

end sqlcheck
